import Mathlib

/-!
Shallow embedding of the push-to-talk dictation core (domain entities,
domain services, the recording use case and the sounddevice recorder)
of the s2t_basic repository, together with theorems settling the frozen
claims about it.

Modelling conventions:
* Python `str` values are modelled as `List Char` (a Python string is a
  sequence of code points); `str.lower` is `pyLower`, `str.strip` is
  `pyStrip`, `str.split()` is `pySplitWs`, `' '.join` is `List.intercalate`.
* NumPy float samples are idealised as rationals (`ℚ`).  The float
  comparisons `sqrt(mean(x**2)) < t` and `> t` are encoded by squaring
  (`sqrt` is strictly monotone on nonnegatives and `sqrt m ≥ 0`), which is
  exact for the rational idealisation; see `AudioData.rms_lt`,
  `windowRmsGt`, `windowRmsLt`.
* `datetime.now()` is modelled by an explicit clock argument (`Nat`);
  `uuid.uuid4()` by a fixed placeholder, since no logic inspects ids.
* Fallible Python code (statements that may `raise`) returns
  `Except (List Char) _`; the interpolated numbers inside Python error
  f-strings are omitted from the message constants (float formatting is
  outside the model, and no logic inspects the messages).
-/

set_option allowUnsafeReducibility true

attribute [local semireducible] Rat.mul Rat.add Rat.sub Rat.div Rat.inv

/-- Python `str.lower()`: lowercase every code point. -/
def pyLower (l : List Char) : List Char := l.map Char.toLower

/-- Python `str.strip()`: drop whitespace from both ends. -/
def pyStrip (l : List Char) : List Char :=
  (((l.dropWhile Char.isWhitespace).reverse).dropWhile Char.isWhitespace).reverse

/-- Python `str.split()` with no argument: split on whitespace runs,
producing no empty fields.  `acc` holds the current word reversed. -/
def pySplitWsAux : List Char → List Char → List (List Char)
  | [], acc => if acc.isEmpty then [] else [acc.reverse]
  | c :: cs, acc =>
    if c.isWhitespace then
      if acc.isEmpty then pySplitWsAux cs [] else acc.reverse :: pySplitWsAux cs []
    else pySplitWsAux cs (c :: acc)

/-- Python `str.split()` with no argument. -/
def pySplitWs (l : List Char) : List (List Char) := pySplitWsAux l []

/-- Python `int(q)` on a float/rational: truncation toward zero
(`Int.tdiv` is T-division, e.g. `int(-1.5) = -1`). -/
def pyInt (q : ℚ) : Int := Int.tdiv q.num (q.den : Int)

/-- Python `range(start, stop, step)` as a list, for `step ≠ 0`:
`max 0 ⌈(stop-start)/step⌉` evenly spaced values from `start`. -/
def pythonRange (start stop step : Int) : List Int :=
  let n : Int :=
    if 0 < step then Int.fdiv (stop - start + step - 1) step
    else Int.fdiv (start - stop - step - 1) (-step)
  (List.range n.toNat).map (fun k => start + (k : Int) * step)

/-- Python slice `l[a:b]` (numpy 1-D slicing has the same semantics):
negative indices count from the end, out-of-range indices are clamped. -/
def pyIdxNorm (len : Nat) (i : Int) : Nat :=
  if i < 0 then ((len : Int) + i).toNat else min i.toNat len

/-- Python slice `l[a:b]`. -/
def pySlice (l : List ℚ) (a b : Int) : List ℚ :=
  (l.take (pyIdxNorm l.length b)).drop (pyIdxNorm l.length a)

/-- Sum of squares of a sample list (`np.sum(x ** 2)` idealised over ℚ). -/
def sumSq (l : List ℚ) : ℚ := (l.map (fun x => x * x)).sum

/- Helper lemmas about the Python string model. -/

theorem pyStrip_eq_nil_iff (l : List Char) :
    pyStrip l = [] ↔ ∀ c ∈ l, c.isWhitespace := by
  unfold pyStrip
  rw [List.reverse_eq_nil_iff, List.dropWhile_eq_nil_iff]
  constructor
  · intro h c hc
    rcases List.mem_append.mp (by rw [List.takeWhile_append_dropWhile (p := Char.isWhitespace) (l := l)]; exact hc) with h1 | h2
    · exact List.mem_takeWhile_imp h1
    · exact h _ (List.mem_reverse.mpr h2)
  · intro h c hc
    exact h c (List.dropWhile_sublist (p := Char.isWhitespace) (l := l) |>.mem (List.mem_reverse.mp hc))

theorem toLower_of_isWhitespace {c : Char} (h : c.isWhitespace) :
    Char.toLower c = c := by
  have h' : c = ' ' ∨ c = '\t' ∨ c = '\r' ∨ c = '\n' := by
    revert h
    unfold Char.isWhitespace
    simp only [Bool.or_eq_true, decide_eq_true_eq]
    tauto
  rcases h' with h' | h' | h' | h' <;> subst h' <;> decide

theorem pyLower_of_all_whitespace {l : List Char} (h : ∀ c ∈ l, c.isWhitespace) :
    pyLower l = l := by
  unfold pyLower
  induction l with
  | nil => rfl
  | cons c cs ih =>
    simp only [List.map_cons]
    rw [toLower_of_isWhitespace (h c (List.mem_cons_self c cs)),
      ih (fun x hx => h x (List.mem_cons_of_mem c hx))]

theorem pyStrip_pyLower_eq_nil {l : List Char} (h : pyStrip l = []) :
    pyStrip (pyLower l) = [] := by
  rw [pyLower_of_all_whitespace ((pyStrip_eq_nil_iff l).mp h)]
  exact h

/-! RecordingSession (src/domain/entities/recording_session.py) -/

/-- Enumeration of possible recording states. -/
inductive RecordingState where
  | idle
  | recording
  | processing
  | completed
  | error
deriving DecidableEq, Repr

/-- Domain entity representing a recording session. -/
structure RecordingSession where
  id : List Char
  state : RecordingState
  sample_rate : Int := 16000
  channels : Int := 1
  start_time : Option Nat := none
  end_time : Option Nat := none
  error_message : Option (List Char) := none
  device_id : Option Int := none
  device_name : Option (List Char) := none
deriving DecidableEq, Repr

def msgCannotStart : List Char := (r"Cannot start recording from state").toList

def msgCannotStop : List Char := (r"Cannot stop recording from state").toList

def msgCannotComplete : List Char := (r"Cannot complete recording from state").toList

/-- Factory method to create a new recording session (`RecordingSession.create`;
the uuid is modelled by a fixed placeholder, no logic inspects it). -/
def RecordingSession.create : RecordingSession :=
  { id := [], state := RecordingState.idle }

/-- Start the recording session (`RecordingSession.start`); raises unless Idle. -/
def RecordingSession.start (s : RecordingSession) (now : Nat) :
    Except (List Char) RecordingSession :=
  if s.state ≠ RecordingState.idle then Except.error msgCannotStart
  else Except.ok { s with
    state := RecordingState.recording
    start_time := some now
    end_time := none
    error_message := none }

/-- Stop the recording session (`RecordingSession.stop`); raises unless Recording. -/
def RecordingSession.stop (s : RecordingSession) (now : Nat) :
    Except (List Char) RecordingSession :=
  if s.state ≠ RecordingState.recording then Except.error msgCannotStop
  else Except.ok { s with
    state := RecordingState.processing
    end_time := some now }

/-- Mark the recording session as completed (`RecordingSession.complete`). -/
def RecordingSession.complete (s : RecordingSession) :
    Except (List Char) RecordingSession :=
  if s.state ≠ RecordingState.processing then Except.error msgCannotComplete
  else Except.ok { s with state := RecordingState.completed }

/-- Mark the recording session as failed (`RecordingSession.fail`).  The
source assigns `self.state = RecordingState.ERROR` first and only THEN
tests `if self.state == RecordingState.RECORDING` before setting
`end_time`; the embedding reproduces that statement order exactly. -/
def RecordingSession.fail (s : RecordingSession) (msg : List Char) (now : Nat) :
    RecordingSession :=
  let s1 := { s with state := RecordingState.error, error_message := some msg }
  if s1.state = RecordingState.recording then { s1 with end_time := some now } else s1

/-- C1: calling `fail(reason)` on a session in state Recording moves it to
Error and stores the reason, but it does NOT record an end time: the source
reassigns `state` to ERROR before testing it against RECORDING, so the
branch that would set `end_time` is dead and `end_time` stays `None`.
This closed theorem evaluates the code at the failing input: a freshly
started session (state Recording, `end_time = None`) that is then failed. -/
theorem c1_fail_records_no_end_time :
    ∃ s1, RecordingSession.create.start 5 = Except.ok s1 ∧
      s1.state = RecordingState.recording ∧
      s1.end_time = none ∧
      (s1.fail (r"device error").toList 7).state = RecordingState.error ∧
      (s1.fail (r"device error").toList 7).error_message = some (r"device error").toList ∧
      (s1.fail (r"device error").toList 7).end_time = none := by
  refine ⟨_, rfl, rfl, rfl, rfl, rfl, rfl⟩

/-- C4: `start()` signals an invalid transition from every state other than
Idle and succeeds from Idle (moving to Recording); `fail(reason)` is total
(never raises) and legal from every state, always landing in Error with the
reason stored. -/
theorem c4_start_fail_transitions :
    (∀ (s : RecordingSession) (now : Nat), s.state ≠ RecordingState.idle →
      ∃ e, s.start now = Except.error e) ∧
    (∀ (s : RecordingSession) (now : Nat), s.state = RecordingState.idle →
      ∃ s', s.start now = Except.ok s' ∧ s'.state = RecordingState.recording) ∧
    (∀ (s : RecordingSession) (msg : List Char) (now : Nat),
      (s.fail msg now).state = RecordingState.error ∧
      (s.fail msg now).error_message = some msg) := by
  refine ⟨?_, ?_, ?_⟩
  · intro s now h
    exact ⟨msgCannotStart, by simp [RecordingSession.start, h]⟩
  · intro s now h
    refine ⟨{ s with state := RecordingState.recording,
                     start_time := some now,
                     end_time := none,
                     error_message := none }, ?_, rfl⟩
    simp [RecordingSession.start, h]
  · intro s msg now
    constructor <;> rfl

/-- C4 witness: concrete instances — `start()` fails from Recording, succeeds
from Idle, and `fail` lands in Error from Idle. -/
theorem c4_start_fail_transitions_witness :
    (∃ e, RecordingSession.start
      { RecordingSession.create with state := RecordingState.recording } 3 = Except.error e) ∧
    (∃ s', RecordingSession.create.start 3 = Except.ok s' ∧
      s'.state = RecordingState.recording) ∧
    ((RecordingSession.create.fail (r"oops").toList 4).state = RecordingState.error ∧
      (RecordingSession.create.fail (r"oops").toList 4).error_message = some (r"oops").toList) :=
  ⟨c4_start_fail_transitions.1 _ 3 (by decide),
   c4_start_fail_transitions.2.1 _ 3 rfl,
   c4_start_fail_transitions.2.2 _ _ 4⟩

/-! AudioData (src/domain/value_objects/audio_data.py) -/

/-- Value object representing audio data.  The 1-D mono sample buffer is a
list of rationals (floats idealised); `sample_rate` and `channels` are the
construction-time fields. -/
structure AudioData where
  data : List ℚ
  sample_rate : Int
  channels : Int
deriving DecidableEq, Repr

/-- Duration of the audio in seconds: `len(data) / sample_rate`. -/
def AudioData.duration_seconds (a : AudioData) : ℚ :=
  (a.data.length : ℚ) / (a.sample_rate : ℚ)

/-- Number of audio samples: `len(data)`. -/
def AudioData.num_samples (a : AudioData) : Nat := a.data.length

/-- Mean of squares of the buffer, the square of `calculate_rms()`
(`0.0` for an empty buffer, per the source's explicit check). -/
def AudioData.meanSq (a : AudioData) : ℚ :=
  if a.data.isEmpty then 0 else sumSq a.data / (a.data.length : ℚ)

/-- Encodes the float comparison `calculate_rms() < t`, i.e.
`sqrt(meanSq) < t`: since `sqrt meanSq ≥ 0` and `sqrt` is strictly
monotone on nonnegatives this holds iff `0 < t ∧ meanSq < t²`. -/
def AudioData.rms_lt (a : AudioData) (t : ℚ) : Bool :=
  decide (0 < t) && decide (a.meanSq < t * t)

/-- Fold computing `max` of absolute values (the value of
`np.max(np.abs(x))` for a nonempty buffer, since all entries are ≥ 0). -/
def listPeak (l : List ℚ) : ℚ := l.foldr (fun x m => max |x| m) 0

/-- Peak amplitude `np.max(np.abs(data))`, `0.0` for an empty buffer. -/
def AudioData.calculate_peak_amplitude (a : AudioData) : ℚ :=
  if a.data.isEmpty then 0 else listPeak a.data

/-- `is_silent(threshold)`: `calculate_rms() < threshold`. -/
def AudioData.is_silent (a : AudioData) (threshold : ℚ) : Bool :=
  a.rms_lt threshold

/-- `is_too_short(min_duration)`: `duration_seconds < min_duration`. -/
def AudioData.is_too_short (a : AudioData) (min_duration : ℚ) : Bool :=
  decide (a.duration_seconds < min_duration)

/-- `is_too_long(max_duration)`: `duration_seconds > max_duration`. -/
def AudioData.is_too_long (a : AudioData) (max_duration : ℚ) : Bool :=
  decide (max_duration < a.duration_seconds)

/-- `normalize(target_peak)`: scale by `target_peak / peak` when the peak is
positive, otherwise return the sample data unchanged. -/
def AudioData.normalize (a : AudioData) (target_peak : ℚ) : AudioData :=
  let peak := a.calculate_peak_amplitude
  let normalized_data :=
    if 0 < peak then a.data.map (fun x => x / peak * target_peak) else a.data
  { data := normalized_data, sample_rate := a.sample_rate, channels := a.channels }

theorem listPeak_nonneg (l : List ℚ) : 0 ≤ listPeak l := by
  induction l with
  | nil => exact le_refl 0
  | cons x xs ih => exact le_trans ih (le_max_right _ _)

theorem listPeak_map_mul (l : List ℚ) (c : ℚ) (hc : 0 ≤ c) :
    listPeak (l.map (fun x => x * c)) = listPeak l * c := by
  induction l with
  | nil => simp [listPeak]
  | cons x xs ih =>
    show max |x * c| (listPeak (xs.map (fun x => x * c))) = max |x| (listPeak xs) * c
    rw [ih, abs_mul, abs_of_nonneg hc, max_mul_of_nonneg _ _ hc]

theorem listPeak_eq_zero_of_all_zero {l : List ℚ} (h : ∀ x ∈ l, x = 0) :
    listPeak l = 0 := by
  induction l with
  | nil => rfl
  | cons x xs ih =>
    show max |x| (listPeak xs) = 0
    rw [h x (List.mem_cons_self x xs),
      ih (fun y hy => h y (List.mem_cons_of_mem x hy)), abs_zero, max_self]

/-- C6 counterexample: on the buffer `[1]` (peak 1 > 0) with target `-1`,
`normalize` yields peak `1 ≠ -1`, refuting the claim as stated for every
target. -/
theorem c6_normalize_counterexample :
    0 < (AudioData.mk [1] 16000 1).calculate_peak_amplitude ∧
    ((AudioData.mk [1] 16000 1).normalize (-1)).calculate_peak_amplitude ≠ -1 := by
  decide

/-- C6 (amended): for every nonnegative target, `normalize` on a buffer of
strictly positive peak yields a buffer of peak exactly `target` (samples
scaled by `target/peak`); on an all-zero buffer the sample data is returned
unchanged (no division by zero occurs). -/
theorem c6_normalize_peak :
    (∀ (a : AudioData) (target : ℚ), 0 ≤ target →
      0 < a.calculate_peak_amplitude →
      (a.normalize target).calculate_peak_amplitude = target) ∧
    (∀ (a : AudioData) (target : ℚ), (∀ x ∈ a.data, x = 0) →
      a.normalize target = a) := by
  constructor
  · intro a target htarget hpeak
    have hne : a.data.isEmpty = false := by
      cases hd : a.data.isEmpty
      · rfl
      · exfalso
        rw [AudioData.calculate_peak_amplitude, hd, if_pos rfl] at hpeak
        exact lt_irrefl 0 hpeak
    have hpk : a.calculate_peak_amplitude = listPeak a.data := by
      rw [AudioData.calculate_peak_amplitude, hne]
      simp
    have hmapne : (a.data.map
        (fun x => x / a.calculate_peak_amplitude * target)).isEmpty = false := by
      rw [List.isEmpty_eq_false_iff_exists_mem] at hne ⊢
      obtain ⟨x, hx⟩ := hne
      exact ⟨_, List.mem_map_of_mem _ hx⟩
    rw [AudioData.normalize]
    simp only [if_pos hpeak]
    rw [AudioData.calculate_peak_amplitude]
    simp only [hmapne, Bool.false_eq_true, if_false]
    have hfun : (a.data.map (fun x => x / a.calculate_peak_amplitude * target)) =
        (a.data.map (fun x => x * (target / a.calculate_peak_amplitude))) := by
      apply List.map_congr_left
      intro x _
      ring
    rw [hfun, listPeak_map_mul _ _ (div_nonneg htarget (le_of_lt hpeak)), ← hpk,
      mul_comm, div_mul_cancel₀ _ (ne_of_gt hpeak)]
  · intro a target hzero
    have hz : listPeak a.data = 0 := listPeak_eq_zero_of_all_zero hzero
    rw [AudioData.normalize, AudioData.calculate_peak_amplitude]
    cases hd : a.data.isEmpty <;> simp [hz]

/-- C6 witness: normalizing `[1/2]` to target `9/10` yields peak `9/10`,
and normalizing the all-zero buffer `[0]` returns it unchanged. -/
theorem c6_normalize_peak_witness :
    ((AudioData.mk [(1 : ℚ)/2] 16000 1).normalize (9/10)).calculate_peak_amplitude = 9/10 ∧
    (AudioData.mk [(0 : ℚ)] 16000 1).normalize (9/10) = AudioData.mk [(0 : ℚ)] 16000 1 :=
  ⟨c6_normalize_peak.1 _ _ (by decide) (by decide),
   c6_normalize_peak.2 _ _ (by decide)⟩

/-! Transcription (src/domain/entities/transcription.py) -/

/-- Domain entity representing a transcribed text from audio. -/
structure Transcription where
  id : List Char
  text : List Char
  timestamp : Nat
  duration_seconds : ℚ
  model_size : List Char
  confidence : Option ℚ := none
  audio_rms : Option ℚ := none
deriving DecidableEq, Repr

/-- Python truthiness of an `Optional[float]`: `None` and `0.0` are falsy. -/
def pyTruthyFloat : Option ℚ → Bool
  | none => false
  | some r => r != 0

/-- Fixed hallucination phrase list from `Transcription.is_likely_hallucination`. -/
def hallucinations : List (List Char) :=
  [(r"thank you").toList, (r"thanks").toList, (r"thank you.").toList,
   (r"thanks.").toList, (r"thank you for watching").toList,
   (r"thanks for watching").toList, (r"please subscribe").toList,
   (r"subscribe").toList, (r"bye").toList, (r"bye.").toList,
   (r"you").toList, (r"you.").toList, (r"♪").toList, (r"[music]").toList,
   (r"[applause]").toList, (r".").toList, (r"..").toList, (r"...").toList, []]

/-- Check if the transcription is likely a Whisper hallucination
(`Transcription.is_likely_hallucination`).  The source guard is
`len(self.text) <= 15 and self.audio_rms and self.audio_rms < 0.01`, i.e.
Python truthiness of `audio_rms` is tested before the numeric comparison. -/
def Transcription.is_likely_hallucination (t : Transcription) : Bool :=
  let text_lower := pyStrip (pyLower t.text)
  if text_lower ∈ hallucinations then true
  else if decide (t.text.length ≤ 15) && pyTruthyFloat t.audio_rms &&
      decide (t.audio_rms.getD 0 < 1/100) then true
  else false

/-! TranscriptionValidator (src/domain/services/transcription_validator.py) -/

/-- Domain service for validating transcriptions; fields are the
constructor parameters. -/
structure TranscriptionValidator where
  min_duration : ℚ
  max_duration : ℚ
  silence_threshold : ℚ
  min_text_length : Int
  min_rms_for_short_text : ℚ
deriving DecidableEq, Repr

/-- The validator with the constructor's default parameters. -/
def defaultValidator : TranscriptionValidator :=
  { min_duration := 1/2
    max_duration := 30
    silence_threshold := 1/1000
    min_text_length := 1
    min_rms_for_short_text := 1/100 }

def msgAudioTooShort : List Char := (r"Audio too short").toList

def msgAudioTooLong : List Char := (r"Audio too long").toList

def msgAudioTooQuiet : List Char := (r"Audio is too quiet").toList

def msgVolumeTooLow : List Char := (r"Audio volume too low").toList

def msgEmptyTranscription : List Char := (r"Empty transcription").toList

def msgTextTooShort : List Char := (r"Text too short").toList

def msgLikelyHallucination : List Char := (r"Likely hallucination").toList

def msgShortTextLowEnergy : List Char :=
  (r"Short text with low audio energy (possible hallucination)").toList

/-- Validate audio data before transcription
(`TranscriptionValidator.validate_audio`). -/
def TranscriptionValidator.validate_audio (v : TranscriptionValidator)
    (audio_data : AudioData) : Bool × Option (List Char) :=
  if audio_data.is_too_short v.min_duration then (false, some msgAudioTooShort)
  else if audio_data.is_too_long v.max_duration then (false, some msgAudioTooLong)
  else if audio_data.is_silent v.silence_threshold then (false, some msgAudioTooQuiet)
  else if audio_data.calculate_peak_amplitude < 1/100 then (false, some msgVolumeTooLow)
  else (true, none)

/-- Validate a transcription result
(`TranscriptionValidator.validate_transcription`). -/
def TranscriptionValidator.validate_transcription (v : TranscriptionValidator)
    (t : Transcription) (audio_data : Option AudioData) : Bool × Option (List Char) :=
  if t.text.isEmpty || (pyStrip t.text).isEmpty then (false, some msgEmptyTranscription)
  else if ((pyStrip t.text).length : Int) < v.min_text_length then
    (false, some msgTextTooShort)
  else if t.is_likely_hallucination then (false, some msgLikelyHallucination)
  else
    match audio_data with
    | some ad =>
      if decide (t.text.length ≤ 15) && ad.rms_lt v.min_rms_for_short_text then
        (false, some msgShortTextLowEnergy)
      else (true, none)
    | none => (true, none)

/-- Quick check if a transcription is valid for output
(`TranscriptionValidator.is_valid_for_output`). -/
def TranscriptionValidator.is_valid_for_output (v : TranscriptionValidator)
    (t : Transcription) : Bool :=
  (v.validate_transcription t none).1

theorem validate_transcription_false_of_hallucination
    (v : TranscriptionValidator) (t : Transcription) (ad : Option AudioData)
    (h : Transcription.is_likely_hallucination t = true) :
    (v.validate_transcription t ad).1 = false := by
  rw [TranscriptionValidator.validate_transcription.eq_def]
  split
  · rfl
  · split
    · rfl
    · simp [h]

theorem validate_transcription_false_of_short_quiet
    (v : TranscriptionValidator) (t : Transcription) (ad : AudioData)
    (hlen : t.text.length ≤ 15) (hrms : ad.rms_lt v.min_rms_for_short_text = true) :
    (v.validate_transcription t (some ad)).1 = false := by
  rw [TranscriptionValidator.validate_transcription.eq_def]
  split
  · rfl
  · split
    · rfl
    · split
      · rfl
      · simp [hlen, hrms]

theorem sumSq_eq_zero_of_all_zero {l : List ℚ} (h : ∀ x ∈ l, x = 0) :
    sumSq l = 0 := by
  unfold sumSq
  apply List.sum_eq_zero
  intro y hy
  obtain ⟨x, hx, hxy⟩ := List.mem_map.mp hy
  rw [← hxy, h x hx, mul_zero]

/-- C2: `validate_transcription` (default parameters) rejects any transcription
whose lowercased stripped text is in the fixed hallucination list, regardless
of any RMS; rejects any transcription of text length ≤ 15 when the supplied
audio's RMS is strictly below `min_rms_for_short_text = 0.01`; and accepts any
text longer than 15 characters that is not in the blocklist, however low the
audio RMS is. -/
theorem c2_validate_transcription_gate :
    (∀ (t : Transcription) (ad : Option AudioData),
      pyStrip (pyLower t.text) ∈ hallucinations →
      (defaultValidator.validate_transcription t ad).1 = false) ∧
    (∀ (t : Transcription) (ad : AudioData),
      t.text.length ≤ 15 → ad.rms_lt (1/100) = true →
      (defaultValidator.validate_transcription t (some ad)).1 = false) ∧
    (∀ (t : Transcription) (ad : Option AudioData),
      15 < t.text.length → pyStrip (pyLower t.text) ∉ hallucinations →
      (defaultValidator.validate_transcription t ad).1 = true) := by
  refine ⟨?_, ?_, ?_⟩
  · intro t ad h
    apply validate_transcription_false_of_hallucination
    rw [Transcription.is_likely_hallucination]
    simp [h]
  · intro t ad hlen hrms
    exact validate_transcription_false_of_short_quiet defaultValidator t ad hlen hrms
  · intro t ad hlen hnot
    have hstrip : (pyStrip t.text).isEmpty = false := by
      cases hs : (pyStrip t.text).isEmpty
      · rfl
      · exfalso
        apply hnot
        rw [pyStrip_pyLower_eq_nil (List.isEmpty_iff.mp hs)]
        decide
    have htne : t.text.isEmpty = false := by
      cases ht : t.text.isEmpty
      · rfl
      · exfalso
        rw [List.isEmpty_iff.mp ht] at hlen
        exact absurd hlen (by decide)
    have hllen : ¬(((pyStrip t.text).length : Int) < defaultValidator.min_text_length) := by
      show ¬(((pyStrip t.text).length : Int) < 1)
      intro hc
      have : (pyStrip t.text).length = 0 := by omega
      rw [← List.isEmpty_iff_length_eq_zero] at this
      rw [this] at hstrip
      exact Bool.noConfusion hstrip
    have hhall : Transcription.is_likely_hallucination t = false := by
      rw [Transcription.is_likely_hallucination]
      have h15 : decide (t.text.length ≤ 15) = false := by
        simp [Nat.not_le.mpr hlen]
      simp only [if_neg hnot, h15, Bool.false_and, Bool.and_false, if_false]
      simp
    rw [TranscriptionValidator.validate_transcription.eq_def]
    rw [htne, hstrip]
    simp only [Bool.or_self, Bool.false_eq_true, if_false, if_neg hllen, hhall]
    cases ad with
    | none => rfl
    | some a =>
      have h15 : decide (t.text.length ≤ 15) = false := by
        simp [Nat.not_le.mpr hlen]
      simp [h15]

/-- C2 witness: the spec's concrete examples — text `you` (blocklist, no
audio) rejected; text `ok` (length 2) with audio of RMS exactly `0.002`
(sample `[1/500]`) rejected; text `hello there friend` (length 18) with
audio of RMS `0.0001` (sample `[1/10000]`) accepted. -/
theorem c2_validate_transcription_gate_witness :
    (defaultValidator.validate_transcription
      { id := [], text := (r"you").toList, timestamp := 0, duration_seconds := 1,
        model_size := [] } none).1 = false ∧
    (defaultValidator.validate_transcription
      { id := [], text := (r"ok").toList, timestamp := 0, duration_seconds := 1,
        model_size := [] } (some (AudioData.mk [1/500] 16000 1))).1 = false ∧
    (defaultValidator.validate_transcription
      { id := [], text := (r"hello there friend").toList, timestamp := 0,
        duration_seconds := 1, model_size := [] }
      (some (AudioData.mk [1/10000] 16000 1))).1 = true :=
  ⟨c2_validate_transcription_gate.1 _ none (by decide),
   c2_validate_transcription_gate.2.1 _ _ (by decide) (by decide),
   c2_validate_transcription_gate.2.2 _ _ (by decide) (by decide)⟩

/-- C9: for a transcription of text length ≤ 15 that is not in the blocklist,
`is_likely_hallucination()` returns `False` when `audio_rms` is exactly `0.0`
(the guard tests Python truthiness of `audio_rms` before comparing it with
`0.01`, and `0.0` is falsy), even though `validate_transcription` called with
the (all-zero) audio data rejects the same text, because it compares the
freshly computed RMS of the supplied audio directly with
`min_rms_for_short_text`. -/
theorem c9_zero_rms_truthy_discrepancy :
    ∀ (t : Transcription) (ad : AudioData),
      t.text.length ≤ 15 →
      pyStrip (pyLower t.text) ∉ hallucinations →
      t.audio_rms = some 0 →
      (∀ x ∈ ad.data, x = 0) →
      Transcription.is_likely_hallucination t = false ∧
      (defaultValidator.validate_transcription t (some ad)).1 = false := by
  intro t ad hlen hnot hrms hzero
  constructor
  · rw [Transcription.is_likely_hallucination]
    simp only [if_neg hnot, hrms, pyTruthyFloat]
    simp
  · apply validate_transcription_false_of_short_quiet defaultValidator t ad hlen
    have hms : ad.meanSq = 0 := by
      rw [AudioData.meanSq]
      cases hd : ad.data.isEmpty
      · simp only [Bool.false_eq_true, if_false]
        rw [sumSq_eq_zero_of_all_zero hzero, zero_div]
      · simp
    rw [AudioData.rms_lt, hms]
    show _ && decide ((0:ℚ) < 1/100 * (1/100)) = true
    decide

/-- C9 witness: text `hi` with `audio_rms = 0.0` is not flagged by
`is_likely_hallucination`, yet `validate_transcription` with the all-zero
buffer `[0, 0]` rejects it. -/
theorem c9_zero_rms_truthy_discrepancy_witness :
    Transcription.is_likely_hallucination
      { id := [], text := (r"hi").toList, timestamp := 0, duration_seconds := 1,
        model_size := [], audio_rms := some 0 } = false ∧
    (defaultValidator.validate_transcription
      { id := [], text := (r"hi").toList, timestamp := 0, duration_seconds := 1,
        model_size := [], audio_rms := some 0 }
      (some (AudioData.mk [0, 0] 16000 1))).1 = false :=
  c9_zero_rms_truthy_discrepancy _ _ (by decide) (by decide) rfl (by decide)

/-! AudioProcessor (src/domain/services/audio_processor.py) -/

def msgRangeZeroStep : List Char := (r"range() arg 3 must not be zero").toList

def msgTargetPeakRange : List Char := (r"Target peak must be between 0 and 1").toList

/-- Encodes the float comparison `np.sqrt(np.mean(w ** 2)) > t` on a raw
window slice: `np.mean` of an empty slice is NaN and NaN comparisons are
False; on a nonempty slice `sqrt(Σx²/len) > t` iff `t < 0 ∨ t²·len < Σx²`. -/
def windowRmsGt (w : List ℚ) (t : ℚ) : Bool :=
  if w.isEmpty then false
  else decide (t < 0) || decide (t * t * (w.length : ℚ) < sumSq w)

/-- Encodes `np.sqrt(np.mean(w ** 2)) < t` on a raw window slice (NaN on an
empty slice, hence False): on a nonempty slice iff `0 < t ∧ Σx² < t²·len`. -/
def windowRmsLt (w : List ℚ) (t : ℚ) : Bool :=
  if w.isEmpty then false
  else decide (0 < t) && decide (sumSq w < t * t * (w.length : ℚ))

/-- Normalize audio to a target peak amplitude
(`AudioProcessor.normalize_audio`); raises unless `0 < target_peak ≤ 1`. -/
def AudioProcessor.normalize_audio (audio_data : AudioData)
    (target_peak : ℚ) : Except (List Char) AudioData :=
  if target_peak ≤ 0 || 1 < target_peak then Except.error msgTargetPeakRange
  else Except.ok (audio_data.normalize target_peak)

/-- Forward scan of `trim_silence`: the first index of
`range(0, len(data) - window_size, window_size // 2)` whose window RMS
exceeds the threshold, defaulting to 0 (`start_idx`). -/
def trimStartIdx (data : List ℚ) (threshold : ℚ) (ws stride : Int) : Int :=
  ((pythonRange 0 ((data.length : Int) - ws) stride).find?
    (fun i => windowRmsGt (pySlice data i (i + ws)) threshold)).getD 0

/-- Backward scan of `trim_silence`: `i + window_size` for the first index
`i` of `range(len(data) - window_size, 0, -window_size // 2)` whose window
RMS exceeds the threshold, defaulting to `len(data)` (`end_idx`). -/
def trimEndIdx (data : List ℚ) (threshold : ℚ) (ws stride2 : Int) : Int :=
  (((pythonRange ((data.length : Int) - ws) 0 stride2).find?
    (fun i => windowRmsGt (pySlice data i (i + ws)) threshold)).map
      (fun i => i + ws)).getD (data.length : Int)

/-- Trim silence from the beginning and end of audio
(`AudioProcessor.trim_silence`).  `window_size = int(min_silence_duration *
sample_rate)`; the forward loop strides by `window_size // 2` and the
backward loop by `-window_size // 2` (Python unary minus binds tighter than
`//`, so this is `(-window_size) // 2`); Python `range` raises `ValueError`
when its step is zero, at the moment the range object is constructed. -/
def AudioProcessor.trim_silence (audio_data : AudioData)
    (threshold min_silence_duration : ℚ) : Except (List Char) AudioData :=
  let data := audio_data.data
  let window_size := pyInt (min_silence_duration * (audio_data.sample_rate : ℚ))
  let stride := Int.fdiv window_size 2
  if stride = 0 then Except.error msgRangeZeroStep
  else
    let start_idx := trimStartIdx data threshold window_size stride
    let stride2 := Int.fdiv (-window_size) 2
    if stride2 = 0 then Except.error msgRangeZeroStep
    else
      let end_idx := trimEndIdx data threshold window_size stride2
      if end_idx ≤ start_idx then Except.ok audio_data
      else Except.ok (AudioData.mk (pySlice data start_idx end_idx)
        audio_data.sample_rate audio_data.channels)

theorem pySlice_length_le (l : List ℚ) (a b : Int) :
    (pySlice l a b).length ≤ l.length := by
  unfold pySlice
  rw [List.length_drop, List.length_take]
  omega

theorem fdiv_two_eq_zero_iff (x : Int) : Int.fdiv x 2 = 0 ↔ x = 0 ∨ x = 1 := by
  rw [Int.fdiv_eq_ediv x (by omega : (0:Int) ≤ 2)]
  omega

theorem except_ok_isOk {ε α : Type} (v : α) :
    (Except.ok v : Except ε α).isOk = true := rfl

/-- C5: whenever `trim_silence` returns a buffer, that buffer has at most as
many samples as the input; and whenever the computed non-silence start index
is ≥ the computed end index, the returned buffer is the original input
unchanged (never an inverted or empty clip). -/
theorem c5_trim_silence_bounds :
    ∀ (a : AudioData) (threshold msd : ℚ) (out : AudioData),
      AudioProcessor.trim_silence a threshold msd = Except.ok out →
      out.data.length ≤ a.data.length ∧
      (trimEndIdx a.data threshold (pyInt (msd * (a.sample_rate : ℚ)))
          (Int.fdiv (-(pyInt (msd * (a.sample_rate : ℚ)))) 2) ≤
        trimStartIdx a.data threshold (pyInt (msd * (a.sample_rate : ℚ)))
          (Int.fdiv (pyInt (msd * (a.sample_rate : ℚ))) 2) →
        out = a) := by
  intro a threshold msd out h
  rw [AudioProcessor.trim_silence] at h
  by_cases h1 : Int.fdiv (pyInt (msd * (a.sample_rate : ℚ))) 2 = 0
  · rw [if_pos h1] at h
    exact absurd h (by simp)
  · rw [if_neg h1] at h
    by_cases h2 : Int.fdiv (-(pyInt (msd * (a.sample_rate : ℚ)))) 2 = 0
    · rw [if_pos h2] at h
      exact absurd h (by simp)
    · rw [if_neg h2] at h
      by_cases h3 : trimEndIdx a.data threshold (pyInt (msd * (a.sample_rate : ℚ)))
          (Int.fdiv (-(pyInt (msd * (a.sample_rate : ℚ)))) 2) ≤
          trimStartIdx a.data threshold (pyInt (msd * (a.sample_rate : ℚ)))
          (Int.fdiv (pyInt (msd * (a.sample_rate : ℚ))) 2)
      · rw [if_pos h3] at h
        have : out = a := (Except.ok.injEq _ _ ▸ h).symm
        subst this
        exact ⟨le_refl _, fun _ => rfl⟩
      · rw [if_neg h3] at h
        have hout : out = AudioData.mk
            (pySlice a.data
              (trimStartIdx a.data threshold (pyInt (msd * (a.sample_rate : ℚ)))
                (Int.fdiv (pyInt (msd * (a.sample_rate : ℚ))) 2))
              (trimEndIdx a.data threshold (pyInt (msd * (a.sample_rate : ℚ)))
                (Int.fdiv (-(pyInt (msd * (a.sample_rate : ℚ)))) 2)))
            a.sample_rate a.channels := by
          exact ((Except.ok.injEq _ _).mp h).symm
        constructor
        · rw [hout]
          exact pySlice_length_le _ _ _
        · intro hc
          exact absurd hc h3

/-- C5 witness: on the buffer `[1/2, 1/2, 0, 0]` at 20 Hz with the default
parameters, `trim_silence` returns `[1/2, 1/2, 0]` (3 ≤ 4 samples); on the
empty buffer the computed start (0) equals the computed end (0) and the
original input is returned unchanged. -/
theorem c5_trim_silence_bounds_witness :
    (AudioData.mk [(1:ℚ)/2, 1/2, 0] 20 1).data.length ≤
      (AudioData.mk [(1:ℚ)/2, 1/2, 0, 0] 20 1).data.length ∧
    AudioData.mk ([] : List ℚ) 20 1 = AudioData.mk ([] : List ℚ) 20 1 :=
  ⟨(c5_trim_silence_bounds (AudioData.mk [(1:ℚ)/2, 1/2, 0, 0] 20 1)
      (1/1000) (1/10) (AudioData.mk [(1:ℚ)/2, 1/2, 0] 20 1) (by rfl)).1,
   (c5_trim_silence_bounds (AudioData.mk ([] : List ℚ) 20 1)
      (1/1000) (1/10) (AudioData.mk ([] : List ℚ) 20 1) (by rfl)).2 (by decide)⟩

/-- C10 counterexample: with `min_silence_duration = -1` at 16000 Hz we have
`int(min_silence_duration * sample_rate) = -16000 < 2`, yet `trim_silence`
returns normally (both strides are nonzero), refuting the claim that every
`int(...) < 2` input raises. -/
theorem c10_trim_silence_counterexample :
    (AudioProcessor.trim_silence (AudioData.mk [0, 0, 0] 16000 1)
      (1/1000) (-1)).isOk = true ∧
    pyInt ((-1) * ((16000 : Int) : ℚ)) < 2 := by
  constructor
  · rfl
  · decide

/-- C10 (amended): `trim_silence` raises `ValueError` exactly when
`int(min_silence_duration * sample_rate) ∈ {-1, 0, 1}` — i.e. when the
forward stride `window_size // 2` or the backward stride `-window_size // 2`
is zero and Python `range()` rejects the zero step; in particular for
`int(...) ≥ 2` the error branch is unreachable, and for `int(...) ≤ -2`
no error occurs either. -/
theorem c10_trim_silence_totality :
    ∀ (a : AudioData) (threshold msd : ℚ),
      ((AudioProcessor.trim_silence a threshold msd).isOk = false ↔
        (pyInt (msd * (a.sample_rate : ℚ)) = -1 ∨
         pyInt (msd * (a.sample_rate : ℚ)) = 0 ∨
         pyInt (msd * (a.sample_rate : ℚ)) = 1)) := by
  intro a threshold msd
  rw [AudioProcessor.trim_silence]
  by_cases h1 : Int.fdiv (pyInt (msd * (a.sample_rate : ℚ))) 2 = 0
  · rw [if_pos h1]
    have := (fdiv_two_eq_zero_iff _).mp h1
    simp only [Except.isOk]
    constructor
    · intro _
      tauto
    · intro _
      rfl
  · rw [if_neg h1]
    by_cases h2 : Int.fdiv (-(pyInt (msd * (a.sample_rate : ℚ)))) 2 = 0
    · rw [if_pos h2]
      have h2' := (fdiv_two_eq_zero_iff _).mp h2
      have h1' := (fdiv_two_eq_zero_iff (pyInt (msd * (a.sample_rate : ℚ)))).not.mp h1
      simp only [Except.isOk]
      constructor
      · intro _
        omega
      · intro _
        rfl
    · rw [if_neg h2]
      have h1' := (fdiv_two_eq_zero_iff (pyInt (msd * (a.sample_rate : ℚ)))).not.mp h1
      have h2' := (fdiv_two_eq_zero_iff (-(pyInt (msd * (a.sample_rate : ℚ))))).not.mp h2
      constructor
      · intro hc
        by_cases h3 : trimEndIdx a.data threshold (pyInt (msd * (a.sample_rate : ℚ)))
            (Int.fdiv (-(pyInt (msd * (a.sample_rate : ℚ)))) 2) ≤
            trimStartIdx a.data threshold (pyInt (msd * (a.sample_rate : ℚ)))
            (Int.fdiv (pyInt (msd * (a.sample_rate : ℚ))) 2)
        · rw [if_pos h3] at hc
          rw [except_ok_isOk] at hc
          exact Bool.noConfusion hc
        · rw [if_neg h3] at hc
          rw [except_ok_isOk] at hc
          exact Bool.noConfusion hc
      · intro hc
        omega

/-! VoiceCommand (src/domain/entities/voice_command.py) -/

/-- Types of voice commands. -/
inductive CommandType where
  | text
  | execute
  | window_target
  | config
deriving DecidableEq, Repr

/-- Domain entity representing a parsed voice command. -/
structure VoiceCommand where
  command_type : CommandType
  text : List Char
  original_text : List Char
  execute : Bool := false
  target_window : Option (List Char) := none
deriving DecidableEq, Repr

/-- Create a regular text command (`VoiceCommand.create_text`). -/
def VoiceCommand.create_text (text : List Char) : VoiceCommand :=
  { command_type := CommandType.text
    text := text
    original_text := text
    execute := false }

/-- Create an execute command (`VoiceCommand.create_execute`). -/
def VoiceCommand.create_execute (text original_text : List Char) : VoiceCommand :=
  { command_type := CommandType.execute
    text := text
    original_text := original_text
    execute := true }

/-! TranscriptionText (src/domain/value_objects/transcription_text.py) -/

/-- Value object representing transcribed text with metadata. -/
structure TranscriptionText where
  raw_text : List Char
  cleaned_text : List Char
  language : List Char
deriving DecidableEq, Repr

/-- Clean the transcribed text (`TranscriptionText._clean_text`):
`' '.join(text.split())` followed by `.strip()`. -/
def clean_text (text : List Char) : List Char :=
  pyStrip (List.intercalate [' '] (pySplitWs text))

/-- Factory method with automatic cleaning (`TranscriptionText.create`). -/
def TranscriptionText.create (raw_text : List Char) : TranscriptionText :=
  { raw_text := raw_text
    cleaned_text := clean_text raw_text
    language := (r"en").toList }

/-- Scan the prefix list in order against the lowercased cleaned text,
returning the first match (the loop body of
`TranscriptionText.contains_command_prefix`). -/
def containsPfxAux (lower_text : List Char) : List (List Char) → Bool × List Char
  | [] => (false, [])
  | p :: ps =>
    if (pyLower p).isPrefixOf lower_text then (true, p)
    else containsPfxAux lower_text ps

/-- Check if the text starts with any command prefix, first listed match
wins (`TranscriptionText.contains_command_prefix`; primed name). -/
def TranscriptionText.contains_command_prefix' (t : TranscriptionText)
    (ps : List (List Char)) : Bool × List Char :=
  containsPfxAux (pyLower t.cleaned_text) ps

/-- Return a new TranscriptionText with the prefix removed, case-insensitive
match, remainder stripped (`TranscriptionText.remove_prefix`; primed name). -/
def TranscriptionText.remove_prefix' (t : TranscriptionText)
    (p : List Char) : TranscriptionText :=
  if (pyLower p).isPrefixOf (pyLower t.cleaned_text) then
    { t with cleaned_text := pyStrip (t.cleaned_text.drop p.length) }
  else t

/-! VoiceCommandParser (src/domain/services/voice_command_parser.py) -/

/-- Command patterns that trigger execution, in source order. -/
def VoiceCommandParser.EXECUTE_PATTERNS : List (List Char) :=
  [(r"execute mode").toList, (r"execute command").toList, (r"execute").toList,
   (r"run command").toList, (r"run this").toList, (r"command mode").toList]

/-- Command patterns for window targeting, in source order. -/
def VoiceCommandParser.WINDOW_PATTERNS : List (List Char) :=
  [(r"target window").toList, (r"send to window").toList, (r"window").toList]

/-- Command patterns for configuration, in source order. -/
def VoiceCommandParser.CONFIG_PATTERNS : List (List Char) :=
  [(r"config").toList, (r"configure").toList, (r"settings").toList,
   (r"setup").toList]

/-- Parse a voice command from transcribed text
(`VoiceCommandParser.parse`). -/
def VoiceCommandParser.parse (text : List Char) : VoiceCommand :=
  if text.isEmpty || (pyStrip text).isEmpty then VoiceCommand.create_text []
  else
    let transcription := TranscriptionText.create text
    let er := TranscriptionText.contains_command_prefix' transcription
      VoiceCommandParser.EXECUTE_PATTERNS
    if er.1 then
      let cleaned := TranscriptionText.remove_prefix' transcription er.2
      VoiceCommand.create_execute cleaned.cleaned_text text
    else
      let wr := TranscriptionText.contains_command_prefix' transcription
        VoiceCommandParser.WINDOW_PATTERNS
      if wr.1 then
        let cleaned := TranscriptionText.remove_prefix' transcription wr.2
        { command_type := CommandType.window_target
          text := cleaned.cleaned_text
          original_text := text
          execute := false
          target_window := some cleaned.cleaned_text }
      else
        let cr := TranscriptionText.contains_command_prefix' transcription
          VoiceCommandParser.CONFIG_PATTERNS
        if cr.1 then
          let cleaned := TranscriptionText.remove_prefix' transcription cr.2
          { command_type := CommandType.config
            text := cleaned.cleaned_text
            original_text := text
            execute := false }
        else VoiceCommand.create_text transcription.cleaned_text

theorem containsPfxAux_head_hit {lt p : List Char} (ps : List (List Char))
    (h : (pyLower p).isPrefixOf lt = true) :
    containsPfxAux lt (p :: ps) = (true, p) := by
  simp [containsPfxAux, h]

theorem remove_prefix_hit {t : TranscriptionText} {p : List Char}
    (h : (pyLower p).isPrefixOf (pyLower t.cleaned_text) = true) :
    TranscriptionText.remove_prefix' t p =
      { t with cleaned_text := pyStrip (t.cleaned_text.drop p.length) } := by
  simp [TranscriptionText.remove_prefix', h]

/-- C7: the parser's concrete contract — `execute mode python test.py`
parses to an Execute command with text `python test.py` and execute=true
(within-category listed order: `execute mode` wins over `execute`);
`EXECUTE MODE run` parses case-insensitively to Execute with text `run`;
every empty or all-whitespace input yields a Text command with empty text
(never an error — the parser is total by construction); and in general any
text whose whitespace-collapsed form starts, case-insensitively, with
`execute mode` yields an Execute command whose text is the remainder after
stripping the matched prefix and trimming. -/
theorem c7_parse_voice_commands :
    VoiceCommandParser.parse ((r"execute mode python test.py").toList) =
      VoiceCommand.create_execute ((r"python test.py").toList)
        ((r"execute mode python test.py").toList) ∧
    VoiceCommandParser.parse ((r"EXECUTE MODE run").toList) =
      VoiceCommand.create_execute ((r"run").toList) ((r"EXECUTE MODE run").toList) ∧
    (∀ t : List Char, pyStrip t = [] →
      VoiceCommandParser.parse t = VoiceCommand.create_text []) ∧
    (∀ t : List Char, pyStrip t ≠ [] →
      ((r"execute mode").toList).isPrefixOf (pyLower (clean_text t)) = true →
      VoiceCommandParser.parse t =
        VoiceCommand.create_execute (pyStrip ((clean_text t).drop 12)) t) := by
  refine ⟨by decide, by decide, ?_, ?_⟩
  · intro t h
    simp [VoiceCommandParser.parse, h]
  · intro t h1 h2
    have ht : t.isEmpty = false := by
      cases t
      · exact absurd rfl h1
      · rfl
    have hs : (pyStrip t).isEmpty = false := by
      cases hp : pyStrip t
      · exact absurd hp h1
      · rfl
    have hlowp : pyLower ((r"execute mode").toList) = (r"execute mode").toList := by
      decide
    have h2' : (pyLower ((r"execute mode").toList)).isPrefixOf
        (pyLower (TranscriptionText.create t).cleaned_text) = true := by
      rw [hlowp]
      exact h2
    have hcc : TranscriptionText.contains_command_prefix'
        (TranscriptionText.create t) VoiceCommandParser.EXECUTE_PATTERNS =
        (true, (r"execute mode").toList) := by
      rw [TranscriptionText.contains_command_prefix',
        VoiceCommandParser.EXECUTE_PATTERNS]
      exact containsPfxAux_head_hit _ h2'
    have hlen : ((r"execute mode").toList).length = 12 := by decide
    have hrp : TranscriptionText.remove_prefix'
        (TranscriptionText.create t) ((r"execute mode").toList) =
        { TranscriptionText.create t with
          cleaned_text := pyStrip (((TranscriptionText.create t).cleaned_text).drop 12) } := by
      rw [remove_prefix_hit h2', hlen]
    rw [VoiceCommandParser.parse]
    rw [ht, hs]
    simp only [Bool.or_self, Bool.false_eq_true, if_false, hcc, hrp]
    simp [TranscriptionText.create]

/-- C7 witness: whitespace-only input parses to the empty Text command, and
`Execute Mode ls` (mixed case) parses to Execute with text `ls`. -/
theorem c7_parse_voice_commands_witness :
    VoiceCommandParser.parse ((r"   ").toList) = VoiceCommand.create_text [] ∧
    VoiceCommandParser.parse ((r"Execute Mode ls").toList) =
      VoiceCommand.create_execute ((r"ls").toList) ((r"Execute Mode ls").toList) :=
  ⟨c7_parse_voice_commands.2.2.1 _ (by decide),
   by
     have h := c7_parse_voice_commands.2.2.2 ((r"Execute Mode ls").toList)
       (by decide) (by decide)
     rw [h]
     decide⟩

/-! SoundDeviceRecorder (src/infrastructure/audio/sounddevice_recorder.py) -/

def msgAlreadyRecording : List Char := (r"Already recording").toList

def msgNotRecording : List Char := (r"Not recording").toList

/-- Sound device recorder state.  Captured blocks are modelled as their
sample lists (the recorder is configured mono, `channels = 1`, so
`np.concatenate` + `flatten` is concatenation of the flattened blocks);
`stream_active` models whether the sounddevice input stream is started.
The OS-level stream object itself is external and assumed to open
successfully. -/
structure SoundDeviceRecorder where
  sample_rate : Int
  channels : Int
  blocksize : Int
  audio_queue : List (List ℚ)
  recording : Bool
  stream_active : Bool
  current_device_id : Option Int
  current_device_name : Option (List Char)
deriving DecidableEq, Repr

/-- Callback appending an incoming block to the queue only while armed
(`SoundDeviceRecorder._audio_callback`). -/
def SoundDeviceRecorder.audio_callback (rec : SoundDeviceRecorder)
    (indata : List ℚ) : SoundDeviceRecorder :=
  if rec.recording then { rec with audio_queue := rec.audio_queue ++ [indata] }
  else rec

/-- Start recording (`SoundDeviceRecorder.start_recording`): raises
`RuntimeError` when already recording; otherwise clears the queue, replaces
the stream with a freshly started one, and sets the recording flag.  The
chosen device (`device_id` if given, else `current_device_id`) is only
passed to the external stream constructor and changes no recorder state. -/
def SoundDeviceRecorder.start_recording (rec : SoundDeviceRecorder)
    (device_id : Option Int) : Except (List Char) SoundDeviceRecorder :=
  if rec.recording then Except.error msgAlreadyRecording
  else
    Except.ok { rec with
      audio_queue := []
      stream_active := true
      recording := true }

/-- Stop recording (`SoundDeviceRecorder.stop_recording`): raises
`RuntimeError` when not recording; otherwise clears the recording flag
first, stops the stream, drains the queue, concatenates the blocks in
arrival (FIFO) order and returns them as AudioData (an empty array — zero
samples — when nothing was captured). -/
def SoundDeviceRecorder.stop_recording (rec : SoundDeviceRecorder) :
    Except (List Char) (AudioData × SoundDeviceRecorder) :=
  if !rec.recording then Except.error msgNotRecording
  else
    let rec1 := { rec with recording := false, stream_active := false }
    let audio_chunks := rec1.audio_queue
    let rec2 := { rec1 with audio_queue := [] }
    let audio_array := audio_chunks.flatten
    Except.ok (AudioData.mk audio_array rec.sample_rate rec.channels, rec2)

/-- Check if currently recording (`SoundDeviceRecorder.is_recording`). -/
def SoundDeviceRecorder.is_recording (rec : SoundDeviceRecorder) : Bool :=
  rec.recording

/-- C8: `start_recording` raises exactly when the recorder is already armed,
and `stop_recording` raises exactly when it is not armed; a successful
`stop_recording` marks the recorder not-armed (so the callback becomes
inert: feeding it a block afterwards changes nothing), drains the queue,
and returns the blocks concatenated in arrival (FIFO) order — with zero
samples when no blocks were captured — while the callback appends each
delivered block at the tail of the queue while armed. -/
theorem c8_recorder_arm_disarm :
    (∀ (rec : SoundDeviceRecorder) (d : Option Int), rec.recording = true →
      ∃ e, rec.start_recording d = Except.error e) ∧
    (∀ (rec : SoundDeviceRecorder) (d : Option Int), rec.recording = false →
      ∃ rec', rec.start_recording d = Except.ok rec' ∧
        rec'.recording = true ∧ rec'.audio_queue = []) ∧
    (∀ rec : SoundDeviceRecorder, rec.recording = false →
      ∃ e, rec.stop_recording = Except.error e) ∧
    (∀ rec : SoundDeviceRecorder, rec.recording = true →
      ∃ a rec', rec.stop_recording = Except.ok (a, rec') ∧
        rec'.recording = false ∧
        rec'.audio_queue = [] ∧
        a.data = rec.audio_queue.flatten ∧
        (rec.audio_queue = [] → a.data.length = 0) ∧
        (∀ blk, rec'.audio_callback blk = rec')) ∧
    (∀ (rec : SoundDeviceRecorder) (blk : List ℚ), rec.recording = true →
      (rec.audio_callback blk).audio_queue = rec.audio_queue ++ [blk]) := by
  refine ⟨?_, ?_, ?_, ?_, ?_⟩
  · intro rec d h
    exact ⟨msgAlreadyRecording, by simp [SoundDeviceRecorder.start_recording, h]⟩
  · intro rec d h
    refine ⟨{ rec with audio_queue := [],
                       stream_active := true,
                       recording := true }, ?_, rfl, rfl⟩
    simp [SoundDeviceRecorder.start_recording, h]
  · intro rec h
    exact ⟨msgNotRecording, by simp [SoundDeviceRecorder.stop_recording, h]⟩
  · intro rec h
    refine ⟨AudioData.mk rec.audio_queue.flatten rec.sample_rate rec.channels,
      { rec with recording := false,
                 stream_active := false,
                 audio_queue := [] },
      ?_, rfl, rfl, rfl, ?_, ?_⟩
    · simp [SoundDeviceRecorder.stop_recording, h]
    · intro hq
      simp [hq]
    · intro blk
      rfl
  · intro rec blk h
    simp [SoundDeviceRecorder.audio_callback, h]

/-- C8 witness: an armed recorder with two queued blocks refuses
`start_recording`, stops to the FIFO concatenation `[1, 2, 3]`, and its
post-stop callback is inert; a disarmed recorder refuses `stop_recording`
and arms successfully. -/
theorem c8_recorder_arm_disarm_witness :
    (∃ e, SoundDeviceRecorder.start_recording
      (SoundDeviceRecorder.mk 16000 1 512 [[1], [2, 3]] true true none none)
      none = Except.error e) ∧
    (∃ rec', SoundDeviceRecorder.start_recording
      (SoundDeviceRecorder.mk 16000 1 512 [] false false none none)
      none = Except.ok rec' ∧ rec'.recording = true ∧ rec'.audio_queue = []) ∧
    (∃ e, SoundDeviceRecorder.stop_recording
      (SoundDeviceRecorder.mk 16000 1 512 [] false false none none) =
        Except.error e) ∧
    (∃ a rec', SoundDeviceRecorder.stop_recording
      (SoundDeviceRecorder.mk 16000 1 512 [[1], [2, 3]] true true none none) =
        Except.ok (a, rec') ∧
      rec'.recording = false ∧
      rec'.audio_queue = [] ∧
      a.data = [[(1:ℚ)], [2, 3]].flatten ∧
      ([[(1:ℚ)], [2, 3]] = ([] : List (List ℚ)) → a.data.length = 0) ∧
      (∀ blk, rec'.audio_callback blk = rec')) ∧
    (SoundDeviceRecorder.audio_callback
      (SoundDeviceRecorder.mk 16000 1 512 [[1]] true true none none)
      [2, 3]).audio_queue = [[1]] ++ [[(2:ℚ), 3]] :=
  ⟨c8_recorder_arm_disarm.1 _ none rfl,
   c8_recorder_arm_disarm.2.1 _ none rfl,
   c8_recorder_arm_disarm.2.2.1 _ rfl,
   c8_recorder_arm_disarm.2.2.2.1 _ rfl,
   c8_recorder_arm_disarm.2.2.2.2 _ _ rfl⟩

/-! Noise gate (src/domain/services/audio_processor.py, apply_noise_gate) -/

/-- `np.linspace(a, b, n)`: `n` evenly spaced points from `a` to `b`,
endpoints included (`n = 1` gives `[a]`, `n = 0` gives `[]`). -/
def linspace (a b : ℚ) (n : Nat) : List ℚ :=
  if n = 0 then []
  else if n = 1 then [a]
  else (List.range n).map (fun k => a + (b - a) * (k : ℚ) / ((n : ℚ) - 1))

/-- One iteration of the noise-gate loop at window start `i`: when the
window RMS is below the threshold, the first
`fade_length = min(release_samples, window_size)` samples of the window are
multiplied by the fade ramp and the rest of the window is zeroed. -/
def noise_gate_step (threshold : ℚ) (release_samples ws : Nat)
    (data : List ℚ) (i : Nat) : List ℚ :=
  let window := (data.drop i).take ws
  if windowRmsLt window threshold then
    let fade_length := min release_samples ws
    let fade := linspace 1 0 fade_length
    data.take i ++
      (List.zipWith (fun x f => x * f) ((data.drop i).take fade_length) fade) ++
      List.replicate (ws - fade_length) 0 ++
      data.drop (i + ws)
  else data

/-- Apply a noise gate (`AudioProcessor.apply_noise_gate`): fixed 10 ms
windows (`window_size = int(0.01 * sample_rate)`), loop stride equal to the
window size; Python `range` raises `ValueError` when the step is zero
(sample rates below 100).  `attack_samples` is computed by the source but
never used.  Negative `release_samples` cannot arise from the use case's
fixed arguments and is clamped. -/
def AudioProcessor.apply_noise_gate (audio_data : AudioData)
    (threshold attack_time release_time : ℚ) : Except (List Char) AudioData :=
  let window_size := pyInt ((1/100) * ((audio_data.sample_rate : Int) : ℚ))
  let release_samples := pyInt (release_time * ((audio_data.sample_rate : Int) : ℚ))
  if window_size = 0 then Except.error msgRangeZeroStep
  else
    let idxs := pythonRange 0 ((audio_data.data.length : Int) - window_size)
      window_size
    Except.ok (AudioData.mk
      (idxs.foldl (fun d i => noise_gate_step threshold release_samples.toNat
        window_size.toNat d i.toNat) audio_data.data)
      audio_data.sample_rate audio_data.channels)

/-! RecordAndTranscribeUseCase
(src/application/use_cases/record_and_transcribe.py).  The audio recorder
and the transcriber are external collaborators behind interfaces; their
single calls made by `execute` are modelled as oracle values/functions that
either return a value or raise. -/

/-- Request DTO for recording and transcribing audio. -/
structure RecordAndTranscribeRequest where
  session_id : List Char
  language : List Char := (r"en").toList
  normalize_audio : Bool := true
  trim_silence : Bool := true
  apply_noise_gate : Bool := false
deriving DecidableEq, Repr

/-- Response DTO for recording and transcribing audio. -/
structure RecordAndTranscribeResponse where
  success : Bool
  transcription : Option Transcription := none
  voice_command : Option VoiceCommand := none
  error_message : Option (List Char) := none
  session : Option RecordingSession := none
deriving DecidableEq, Repr

def msgRecordingNotStarted : List Char := (r"Recording not started").toList

def msgUnexpectedPre : List Char := (r"Unexpected error: ").toList

/-- The `except Exception` catch-all of `execute`: fail the session with the
exception message and return the structured failure. -/
def catchAll (s : RecordingSession) (e : List Char) (now : Nat) :
    RecordAndTranscribeResponse :=
  { success := false
    error_message := some (msgUnexpectedPre ++ e)
    session := some (s.fail e now) }

/-- Execute the recording and transcription process
(`RecordAndTranscribeUseCase.execute`).  `recIs` models the
`audio_recorder.is_recording()` call, `recStop` the
`audio_recorder.stop_recording()` call and `transcriber` the
`transcriber.transcribe(audio, language)` call; each may raise.  The
processing steps run the embedded domain services with the source's
default arguments; every raise anywhere inside the `try` block lands in
`catchAll`. -/
def RecordAndTranscribeUseCase.execute
    (recIs : Except (List Char) Bool)
    (recStop : Except (List Char) AudioData)
    (transcriber : AudioData → List Char → Except (List Char) Transcription)
    (v : TranscriptionValidator)
    (t0 t1 : Nat)
    (req : RecordAndTranscribeRequest) : RecordAndTranscribeResponse :=
  let session := RecordingSession.create
  match session.start t0 with
  | Except.error e => catchAll session e t1
  | Except.ok s1 =>
    match recIs with
    | Except.error e => catchAll s1 e t1
    | Except.ok isRec =>
      if !isRec then
        { success := false
          error_message := some msgRecordingNotStarted
          session := some s1 }
      else
        match recStop with
        | Except.error e => catchAll s1 e t1
        | Except.ok audio0 =>
          match s1.stop t1 with
          | Except.error e => catchAll s1 e t1
          | Except.ok s2 =>
            match v.validate_audio audio0 with
            | (false, msg) =>
              { success := false
                error_message := msg
                session := some (s2.fail (msg.getD []) t1) }
            | (true, _) =>
              match (if req.trim_silence then
                  AudioProcessor.trim_silence audio0 (1/1000) (1/10)
                else Except.ok audio0) with
              | Except.error e => catchAll s2 e t1
              | Except.ok audio1 =>
                match (if req.normalize_audio then
                    AudioProcessor.normalize_audio audio1 (9/10)
                  else Except.ok audio1) with
                | Except.error e => catchAll s2 e t1
                | Except.ok audio2 =>
                  match (if req.apply_noise_gate then
                      AudioProcessor.apply_noise_gate audio2 (1/1000) (1/100) (1/10)
                    else Except.ok audio2) with
                  | Except.error e => catchAll s2 e t1
                  | Except.ok audio3 =>
                    match transcriber audio3 req.language with
                    | Except.error e => catchAll s2 e t1
                    | Except.ok transcription =>
                      match v.validate_transcription transcription (some audio3) with
                      | (false, msg) =>
                        { success := false
                          error_message := msg
                          session := some (s2.fail (msg.getD []) t1) }
                      | (true, _) =>
                        let voice_command := VoiceCommandParser.parse transcription.text
                        match s2.complete with
                        | Except.error e => catchAll s2 e t1
                        | Except.ok s3 =>
                          { success := true
                            transcription := some transcription
                            voice_command := some voice_command
                            error_message := none
                            session := some s3 }

theorem validate_audio_reject_msg (v : TranscriptionValidator) (a : AudioData) :
    (v.validate_audio a).1 = false → ∃ m, (v.validate_audio a).2 = some m := by
  rw [TranscriptionValidator.validate_audio]
  split
  · exact fun _ => ⟨msgAudioTooShort, rfl⟩
  · split
    · exact fun _ => ⟨msgAudioTooLong, rfl⟩
    · split
      · exact fun _ => ⟨msgAudioTooQuiet, rfl⟩
      · split
        · exact fun _ => ⟨msgVolumeTooLow, rfl⟩
        · intro h
          exact Bool.noConfusion h

theorem validate_transcription_reject_msg (v : TranscriptionValidator)
    (t : Transcription) (ad : Option AudioData) :
    (v.validate_transcription t ad).1 = false →
    ∃ m, (v.validate_transcription t ad).2 = some m := by
  rw [TranscriptionValidator.validate_transcription.eq_def]
  split
  · exact fun _ => ⟨msgEmptyTranscription, rfl⟩
  · split
    · exact fun _ => ⟨msgTextTooShort, rfl⟩
    · split
      · exact fun _ => ⟨msgLikelyHallucination, rfl⟩
      · split
        · split
          · exact fun _ => ⟨msgShortTextLowEnergy, rfl⟩
          · intro h
            exact Bool.noConfusion h
        · intro h
          exact Bool.noConfusion h

/-- C3: the orchestrator's `execute` is a total function (the embedding
returns a structured response on every path, so no exception propagates),
always returns a session, and — apart from the early
`Recording not started` return, excluded here by the `recIs = ok true`
hypothesis — every failure response carries a session in the Error state
whose stored reason (recorded via `fail()`) is the response's error message
for validation rejections, or the response's message without its
`Unexpected error: ` prefix for caught exceptions (transcriber raises and
any other internal raise). -/
theorem c3_execute_error_boundary :
    ∀ (recIs : Except (List Char) Bool) (recStop : Except (List Char) AudioData)
      (transcriber : AudioData → List Char → Except (List Char) Transcription)
      (v : TranscriptionValidator) (t0 t1 : Nat)
      (req : RecordAndTranscribeRequest),
      (∃ s, (RecordAndTranscribeUseCase.execute recIs recStop transcriber
        v t0 t1 req).session = some s) ∧
      (recIs = Except.ok true →
        (RecordAndTranscribeUseCase.execute recIs recStop transcriber
          v t0 t1 req).success = false →
        ∃ s m,
          (RecordAndTranscribeUseCase.execute recIs recStop transcriber
            v t0 t1 req).session = some s ∧
          s.state = RecordingState.error ∧
          s.error_message = some m ∧
          ((RecordAndTranscribeUseCase.execute recIs recStop transcriber
              v t0 t1 req).error_message = some m ∨
           (RecordAndTranscribeUseCase.execute recIs recStop transcriber
              v t0 t1 req).error_message = some (msgUnexpectedPre ++ m))) := by
  intro recIs recStop transcriber v t0 t1 req
  simp only [RecordAndTranscribeUseCase.execute.eq_def]
  cases hstart : RecordingSession.create.start t0 with
  | error e => exact ⟨⟨_, rfl⟩, fun _ _ => ⟨_, e, rfl, rfl, rfl, Or.inr rfl⟩⟩
  | ok s1 =>
    simp only []
    cases recIs with
    | error e =>
      exact ⟨⟨_, rfl⟩, fun h _ => Except.noConfusion h⟩
    | ok isRec =>
      simp only []
      cases isRec with
      | false =>
        refine ⟨⟨s1, rfl⟩, ?_⟩
        intro h _
        injection h with h'
        exact Bool.noConfusion h'
      | true =>
        cases recStop with
        | error e => exact ⟨⟨_, rfl⟩, fun _ _ => ⟨_, e, rfl, rfl, rfl, Or.inr rfl⟩⟩
        | ok audio0 =>
          simp only []
          cases hstop : s1.stop t1 with
          | error e => exact ⟨⟨_, rfl⟩, fun _ _ => ⟨_, e, rfl, rfl, rfl, Or.inr rfl⟩⟩
          | ok s2 =>
            simp only []
            cases hva : v.validate_audio audio0 with
            | mk b msg =>
              try simp only []
              cases b with
              | false =>
                obtain ⟨m, hm⟩ := validate_audio_reject_msg v audio0 (by rw [hva])
                rw [hva] at hm
                subst hm
                exact ⟨⟨_, rfl⟩, fun _ _ => ⟨_, m, rfl, rfl, rfl, Or.inl rfl⟩⟩
              | true =>
                cases hstep1 : (if req.trim_silence then
                    AudioProcessor.trim_silence audio0 (1/1000) (1/10)
                  else Except.ok audio0) with
                | error e =>
                  exact ⟨⟨_, rfl⟩, fun _ _ => ⟨_, e, rfl, rfl, rfl, Or.inr rfl⟩⟩
                | ok audio1 =>
                  simp only []
                  cases hstep2 : (if req.normalize_audio then
                      AudioProcessor.normalize_audio audio1 (9/10)
                    else Except.ok audio1) with
                  | error e =>
                    exact ⟨⟨_, rfl⟩, fun _ _ => ⟨_, e, rfl, rfl, rfl, Or.inr rfl⟩⟩
                  | ok audio2 =>
                    simp only []
                    cases hstep3 : (if req.apply_noise_gate then
                        AudioProcessor.apply_noise_gate audio2 (1/1000) (1/100) (1/10)
                      else Except.ok audio2) with
                    | error e =>
                      exact ⟨⟨_, rfl⟩, fun _ _ => ⟨_, e, rfl, rfl, rfl, Or.inr rfl⟩⟩
                    | ok audio3 =>
                      simp only []
                      cases htr : transcriber audio3 req.language with
                      | error e =>
                        exact ⟨⟨_, rfl⟩, fun _ _ => ⟨_, e, rfl, rfl, rfl, Or.inr rfl⟩⟩
                      | ok tr =>
                        simp only []
                        cases hvt : v.validate_transcription tr (some audio3) with
                        | mk b2 msg2 =>
                          try simp only []
                          cases b2 with
                          | false =>
                            obtain ⟨m, hm⟩ :=
                              validate_transcription_reject_msg v tr (some audio3)
                                (by rw [hvt])
                            rw [hvt] at hm
                            subst hm
                            exact ⟨⟨_, rfl⟩,
                              fun _ _ => ⟨_, m, rfl, rfl, rfl, Or.inl rfl⟩⟩
                          | true =>
                            cases hcomp : s2.complete with
                            | error e =>
                              exact ⟨⟨_, rfl⟩,
                                fun _ _ => ⟨_, e, rfl, rfl, rfl, Or.inr rfl⟩⟩
                            | ok s3 =>
                              exact ⟨⟨s3, rfl⟩, fun _ h => Bool.noConfusion h⟩

/-- C3 witness: with an armed recorder returning an empty buffer and a
transcriber oracle that raises, pre-validation rejects (audio too short)
and the returned session is in the Error state with the rejection reason. -/
theorem c3_execute_error_boundary_witness :
    ∃ s m,
      (RecordAndTranscribeUseCase.execute (Except.ok true)
        (Except.ok (AudioData.mk [] 16000 1))
        (fun _ _ => Except.error ((r"boom").toList))
        defaultValidator 0 1
        { session_id := [] }).session = some s ∧
      s.state = RecordingState.error ∧
      s.error_message = some m ∧
      ((RecordAndTranscribeUseCase.execute (Except.ok true)
          (Except.ok (AudioData.mk [] 16000 1))
          (fun _ _ => Except.error ((r"boom").toList))
          defaultValidator 0 1
          { session_id := [] }).error_message = some m ∨
       (RecordAndTranscribeUseCase.execute (Except.ok true)
          (Except.ok (AudioData.mk [] 16000 1))
          (fun _ _ => Except.error ((r"boom").toList))
          defaultValidator 0 1
          { session_id := [] }).error_message = some (msgUnexpectedPre ++ m)) :=
  (c3_execute_error_boundary (Except.ok true)
    (Except.ok (AudioData.mk [] 16000 1))
    (fun _ _ => Except.error ((r"boom").toList))
    defaultValidator 0 1 { session_id := [] }).2 rfl rfl
